import Mathlib

/-!
Shallow embedding of the recommendation engine of the BookTrackerBot
repository (`services/recommendations.py` together with the SQL issued
through `database/db.py`), and proofs about the spec's claims.

Modelling conventions:
* SQLite integers are `Int`, nullable columns are `Option`, SQL `NULL`
  is `none`.
* Python exceptions are an explicit `Except` result; a `try/except`
  block is a `match` on that result.
* The non-deterministic pieces (`ORDER BY RANDOM()`, `random.shuffle`)
  and the failure behaviour of the store are oracles carried in an
  `Env` record; theorems that need them to be genuine permutations or
  genuine failures say so by hypothesis.
* Floating point arithmetic (TF-IDF / cosine similarity, numpy) is
  modelled over `ℝ`; the sklearn vectorizer is an oracle
  `vec : List String → String → List ℝ` (fit corpus, then transform one
  document), about which theorems assume only what TF-IDF guarantees
  (componentwise non-negative output).
* Presentation-only columns (`cover_url`, `publication_year`,
  timestamps, `user_notes`) are omitted: no recommendation-path code
  reads them, and `ORDER BY ub.date_added` is therefore not modelled
  either (no claim depends on library order).
-/

namespace BookTrackerBot

/-- A row of the `books` table (see `init_database` in `database/db.py`):
`id INTEGER PRIMARY KEY`, `title`, `author` (NOT NULL but still strings),
nullable `genre` and `description`. -/
structure Book where
  id : Int
  title : Option String
  author : Option String
  genre : Option String
  description : Option String
  deriving Repr, DecidableEq, Inhabited

/-- A row of the `user_books` table: one library entry per
(user, book) pair, with a nullable 1..10 rating. -/
structure UserBookRow where
  user_id : Int
  book_id : Int
  user_rating : Option Int
  deriving Repr, DecidableEq

/-- The database state read (and, elsewhere in the bot, written) through
`database/db.py`. -/
structure DB where
  books : List Book
  user_books : List UserBookRow
  deriving Repr, DecidableEq

/-- The dict produced by `db.get_user_books`: the book columns joined
with the requesting user's rating. -/
structure LibraryBook where
  book : Book
  user_rating : Option Int
  deriving Repr, DecidableEq

/-- The dict produced by the recommendation queries: a book plus
`recommendation_type` and, for content-based entries, a
`similarity_score`. -/
structure Recommendation where
  book : Book
  recommendation_type : String
  similarity_score : Option ℝ := none
  deriving Inhabited

/-- The Python exceptions that can cross a boundary on the
recommendation path: a store/driver failure, or the `TypeError` raised
by comparing `None` with an `int`. -/
inductive PyErr where
  | storeErr
  | typeErr
  deriving Repr, DecidableEq

/-! ### Pure SQL queries (`database/db.py`) -/

/-- `get_user_books`: `SELECT ... FROM user_books ub JOIN books b ON
ub.book_id = b.id WHERE ub.user_id = ?`.  `books.id` is the primary
key, so the join resolves each row's book with `find?`. -/
def user_books_query (db : DB) (uid : Int) : List LibraryBook :=
  (db.user_books.filter (fun r => r.user_id == uid)).filterMap
    (fun r => (db.books.find? (fun b => b.id == r.book_id)).map
      (fun b => { book := b, user_rating := r.user_rating }))

/-- The (genre, rating) pairs aggregated by `get_user_genres_and_ratings`:
the joined rows with `b.genre IS NOT NULL AND ub.user_rating IS NOT NULL`. -/
def ratedGenrePairs (db : DB) (uid : Int) : List (String × Int) :=
  (user_books_query db uid).filterMap (fun lb =>
    match lb.book.genre, lb.user_rating with
    | some g, some r => some (g, r)
    | _, _ => none)

/-- Insertion step of `sortBy`. -/
def insertBy (le : α → α → Bool) (a : α) : List α → List α
  | [] => [a]
  | b :: l => if le a b then a :: b :: l else b :: insertBy le a l

/-- Deterministic sort used to model SQL `ORDER BY` clauses: `le a b`
means `a` may come before `b`. -/
def sortBy (le : α → α → Bool) : List α → List α
  | [] => []
  | a :: l => insertBy le a (sortBy le l)

/-- `ORDER BY avg_rating DESC, count DESC` on genre aggregates. -/
def aggLe (a b : String × ℚ × Nat) : Bool :=
  decide (b.2.1 < a.2.1 ∨ (a.2.1 = b.2.1 ∧ b.2.2 ≤ a.2.2))

/-- `get_user_genres_and_ratings`: `SELECT b.genre, AVG(ub.user_rating),
COUNT(*) ... GROUP BY b.genre ORDER BY avg_rating DESC, count DESC`.
SQL `AVG` over integers is modelled exactly over `ℚ`. -/
def genre_aggregates_query (db : DB) (uid : Int) : List (String × ℚ × Nat) :=
  let pairs := ratedGenrePairs db uid
  sortBy aggLe (((pairs.map Prod.fst).dedup).map (fun g =>
    let rs := (pairs.filter (fun p => p.1 == g)).map Prod.snd
    (g, mkRat rs.sum rs.length, rs.length)))

/-- Whether `pat` starts the char list. -/
def startsWith : List Char → List Char → Bool
  | _, [] => true
  | [], _ :: _ => false
  | c :: hs, p :: ps => c == p && startsWith hs ps

/-- Whether `pat` occurs contiguously in the char list. -/
def containsSeq (pat : List Char) : List Char → Bool
  | [] => startsWith [] pat
  | c :: hs => startsWith (c :: hs) pat || containsSeq pat hs

/-- SQL `genre LIKE '%pat%'`: substring match, ASCII case-insensitive
(SQLite default); a `NULL` genre never matches. -/
def likeMatch (pat : String) (s : Option String) : Bool :=
  match s with
  | none => false
  | some t => containsSeq (pat.toList.map Char.toLower) (t.toList.map Char.toLower)

/-- The rows satisfying `WHERE genre LIKE ?` in `_find_books_by_genre`
(before `ORDER BY RANDOM() LIMIT ?`). -/
def books_by_genre_query (db : DB) (genre : String) : List Book :=
  db.books.filter (fun b => likeMatch genre b.genre)

/-- The rows satisfying `WHERE description IS NOT NULL AND description
!= ''` in `_get_candidate_books` (before `ORDER BY RANDOM() LIMIT ?`). -/
def candidate_books_query (db : DB) : List Book :=
  db.books.filter (fun b => match b.description with
    | none => false
    | some d => d != "")

/-- `COUNT(ub.book_id)` of the `LEFT JOIN` in `_get_popular_books`:
the number of `user_books` rows holding the book (one per user thanks to
`UNIQUE(user_id, book_id)`). -/
def holderCount (db : DB) (bid : Int) : Nat :=
  (db.user_books.filter (fun r => r.book_id == bid)).length

/-- `ORDER BY popularity DESC, b.id DESC`. -/
def popLe (db : DB) (a b : Book) : Bool :=
  decide (holderCount db b.id < holderCount db a.id ∨
    (holderCount db a.id = holderCount db b.id ∧ b.id ≤ a.id))

/-- The query of `_get_popular_books`: all books ranked by holder count
descending, ties by id descending, truncated by `LIMIT ?`. -/
def popular_books_query (db : DB) (limit : Nat) : List Book :=
  (sortBy (popLe db) db.books).take limit

/-! ### Environment: store failures and randomness oracles -/

/-- Oracles for everything non-deterministic on the recommendation path:
which store calls raise, how `ORDER BY RANDOM()` permutes each result
set, how `random.shuffle` permutes each list, whether
`TfidfVectorizer.fit_transform` raises `ValueError`, and what vector the
fitted vectorizer assigns to each document of a corpus. -/
structure Env where
  fail_user_books : Bool := false
  fail_user_genres : Bool := false
  fail_books_by_genre : Bool := false
  fail_candidate_books : Bool := false
  fail_popular_books : Bool := false
  tfidf_fails : Bool := false
  rand_genre : String → List Book → List Book := fun _ l => l
  rand_candidates : List Book → List Book := fun l => l
  shuffle_personal : List Recommendation → List Recommendation := fun l => l
  shuffle_popular : List Recommendation → List Recommendation := fun l => l
  vec : List String → String → List ℝ := fun _ _ => []

/-- `db.get_user_books(user_id)`: a SELECT; on driver failure db.py logs
and re-raises. The unchanged `DB` is returned (also alongside an error:
a Python exception does not roll state back). -/
def get_user_books (env : Env) (uid : Int) (db : DB) :
    Except (PyErr × DB) (List LibraryBook × DB) :=
  if env.fail_user_books then .error (.storeErr, db)
  else .ok (user_books_query db uid, db)

/-- `db.get_user_genres_and_ratings(user_id)`: a SELECT; re-raises on
failure. -/
def get_user_genres_and_ratings (env : Env) (uid : Int) (db : DB) :
    Except (PyErr × DB) (List (String × ℚ × Nat) × DB) :=
  if env.fail_user_genres then .error (.storeErr, db)
  else .ok (genre_aggregates_query db uid, db)

/-- `_find_books_by_genre(genre, limit)`: SELECT with `LIKE`,
`ORDER BY RANDOM() LIMIT ?`, rows tagged `genre_based`; its own
`try/except` turns any failure into `[]`. -/
def find_books_by_genre (env : Env) (genre : String) (limit : Nat) (db : DB) :
    List Recommendation × DB :=
  ((if env.fail_books_by_genre then []
    else ((env.rand_genre genre (books_by_genre_query db genre)).take limit).map
      (fun b => { book := b, recommendation_type := "genre_based" })), db)

/-- `_get_candidate_books(limit=100)`: SELECT of described books,
`ORDER BY RANDOM() LIMIT ?`, rows tagged `content_based`; its own
`try/except` turns any failure into `[]`. -/
def get_candidate_books (env : Env) (limit : Nat) (db : DB) :
    List Recommendation × DB :=
  ((if env.fail_candidate_books then []
    else ((env.rand_candidates (candidate_books_query db)).take limit).map
      (fun b => { book := b, recommendation_type := "content_based" })), db)

/-- `_get_popular_books(limit=10)`: the popularity SELECT, rows tagged
`popular`; its own `try/except` turns any failure into `[]`. -/
def get_popular_books (env : Env) (limit : Nat) (db : DB) :
    List Recommendation × DB :=
  ((if env.fail_popular_books then []
    else (popular_books_query db limit).map
      (fun b => { book := b, recommendation_type := "popular" })), db)

/-! ### Deduplication (`_remove_duplicates`, lines 279-290) -/

/-- Loop of `_remove_duplicates`: `seen` is the `seen_ids` set (Python's
set membership on ints, a list here).  A record is appended only when
`book_id and book_id not in seen_ids` — Python truthiness of the id is
`id ≠ 0`. -/
def remove_duplicates_aux (seen : List Int) : List Recommendation → List Recommendation
  | [] => []
  | b :: rest =>
    if b.book.id ≠ 0 ∧ b.book.id ∉ seen then
      b :: remove_duplicates_aux (b.book.id :: seen) rest
    else remove_duplicates_aux seen rest

/-- `_remove_duplicates(books)`. -/
def remove_duplicates (books : List Recommendation) : List Recommendation :=
  remove_duplicates_aux [] books

/-- Modelled from the spec: §4.5 "given an ordered sequence of
Recommendation-like records, return the subsequence keeping only the
first occurrence of each identity, preserving relative order"; used as
the reference point the code's `_remove_duplicates` is compared with.
`seen` is the set of identities already output. -/
def spec_first_occurrence_aux (seen : List Int) : List Recommendation → List Recommendation
  | [] => []
  | b :: rest =>
    if b.book.id ∈ seen then spec_first_occurrence_aux seen rest
    else b :: spec_first_occurrence_aux (b.book.id :: seen) rest

/-- Modelled from the spec: §4.5, first occurrence of every identity. -/
def spec_first_occurrence (books : List Recommendation) : List Recommendation :=
  spec_first_occurrence_aux [] books

/-! ### Genre-based strategy (`_get_genre_based_recommendations`, lines 66-92) -/

/-- Lines 74-81: genres whose average rating is `>= 5.0`; if none
qualify, the first three aggregates (the list arrives sorted by average
descending, count descending). -/
def preferred_genres (user_genres : List (String × ℚ × Nat)) : List String :=
  let p := (user_genres.filter (fun g => decide ((5 : ℚ) ≤ g.2.1))).map Prod.fst
  if p.isEmpty then (user_genres.take 3).map Prod.fst else p

/-- Lines 83-86: the loop fetching up to 5 books per genre and
extending `recommendations`, threading the store state. -/
def genre_fetch (env : Env) : List String → DB → List Recommendation × DB
  | [], db => ([], db)
  | g :: gs, db =>
    let r1 := find_books_by_genre env g 5 db
    let r2 := genre_fetch env gs r1.2
    (r1.1 ++ r2.1, r2.2)

/-- `_get_genre_based_recommendations(user_id)`: its `try/except`
returns `[]` when the aggregate lookup raises. -/
def get_genre_based_recommendations (env : Env) (uid : Int) (db : DB) :
    List Recommendation × DB :=
  match get_user_genres_and_ratings env uid db with
  | .error (_, db1) => ([], db1)
  | .ok (user_genres, db1) =>
    if user_genres.isEmpty then ([], db1)
    else genre_fetch env ((preferred_genres user_genres).take 3) db1

/-! ### Content-based strategy (`_get_content_based_recommendations`, lines 94-176) -/

/-- Lines 109-119 / 131-141: the text parts of a book — title, author,
genre, first 500 characters of the description — keeping only Python
truthy (present and non-empty) fields. -/
def textParts (b : Book) : List String :=
  (match b.title with | some t => if t = "" then [] else [t] | none => []) ++
  (match b.author with | some a => if a = "" then [] else [a] | none => []) ++
  (match b.genre with | some g => if g = "" then [] else [g] | none => []) ++
  (match b.description with | some d => if d = "" then [] else [d.take 500] | none => [])

/-- `' '.join(text_parts)`. -/
def bookText (b : Book) : String :=
  String.intercalate " " (textParts b)

/-- Lines 98-101: `[book for book in user_books if
book.get('user_rating', 0) >= 5]`.  The `user_rating` key is always
present in the dicts built by `get_user_books`, so `.get` returns the
stored value; a `NULL` rating is Python `None`, and `None >= 5` raises
`TypeError`. -/
def likedFilter : List LibraryBook → Except PyErr (List LibraryBook)
  | [] => .ok []
  | b :: rest =>
    match b.user_rating with
    | none => .error .typeErr
    | some r =>
      match likedFilter rest with
      | .error e => .error e
      | .ok t => .ok (if 5 ≤ r then b :: t else t)

/-- Modelled from the spec: §4.3 step 1, "the user's LibraryEntry items
with rating ≥ 5" where an absent rating simply does not qualify; the
reference point the code's liked-set comprehension is compared with. -/
def spec_liked (books : List LibraryBook) : List LibraryBook :=
  books.filter (fun b => match b.user_rating with
    | some r => decide ((5 : Int) ≤ r)
    | none => false)

/-- Dot product of two vectors given as lists (numpy broadcasting is not
needed: sklearn always produces equal-length rows). -/
noncomputable def dotProd (x y : List ℝ) : ℝ :=
  (List.zipWith (· * ·) x y).sum

/-- `sklearn.metrics.pairwise.cosine_similarity` of two rows.  Lean's
`x / 0 = 0` convention coincides with sklearn's handling of zero-norm
rows (their similarity is 0). -/
noncomputable def cosine_sim (x y : List ℝ) : ℝ :=
  dotProd x y / (Real.sqrt (dotProd x x) * Real.sqrt (dotProd y y))

/-- Line 160: `np.mean(similarities, axis=1)` — the mean cosine
similarity of a candidate vector against every liked-item vector. -/
noncomputable def mean_similarity (v : List ℝ) (us : List (List ℝ)) : ℝ :=
  (us.map (fun u => cosine_sim v u)).sum / (us.length : ℝ)

/-- Line 163: `np.argsort(avg_similarities)[::-1]` — the candidate
indices ordered by score descending. -/
noncomputable def sorted_indices_desc (score : Nat → ℝ) (n : Nat) : List Nat :=
  @List.insertionSort Nat (fun i j => score j ≤ score i)
    (fun i j => Real.decidableLE (score j) (score i)) (List.range n)

/-- Lines 165-171: walk the 10 best indices, keep those whose score
exceeds `0.05`, copy the candidate dict and attach its
`similarity_score`. -/
noncomputable def rank_candidates (cands : List Recommendation) (score : Nat → ℝ) :
    List Recommendation :=
  (((sorted_indices_desc score cands.length).take 10).filter
      (fun i => decide ((0.05 : ℝ) < score i))).map
    (fun i => { cands.getD i default with similarity_score := some (score i) })

/-- The candidate scores of lines 150-160: TF-IDF is fit on
`all_texts`, each row is transformed, and candidate `i` gets the mean
cosine similarity against the user rows. -/
noncomputable def content_score (env : Env) (all_texts user_texts candidate_texts : List String)
    (i : Nat) : ℝ :=
  mean_similarity ((candidate_texts.map (env.vec all_texts)).getD i [])
    (user_texts.map (env.vec all_texts))

/-- `_get_content_based_recommendations(user_id)`: every early `return
[]` of the source is a branch; the outer `try/except` (which in
particular swallows the `TypeError` of line 100 and store failures)
returns `[]`. -/
noncomputable def get_content_based_recommendations (env : Env) (uid : Int) (db : DB) :
    List Recommendation × DB :=
  match get_user_books env uid db with
  | .error (_, db1) => ([], db1)
  | .ok (user_books, db1) =>
    match likedFilter user_books with
    | .error _ => ([], db1)
    | .ok high_rated_books =>
      if high_rated_books.isEmpty then ([], db1)
      else
        let user_texts := high_rated_books.map (fun b => bookText b.book)
        if user_texts.isEmpty then ([], db1)
        else
          let c := get_candidate_books env 100 db1
          if c.1.isEmpty then ([], c.2)
          else
            let candidate_texts := c.1.map (fun r => bookText r.book)
            let all_texts := user_texts ++ candidate_texts
            if all_texts.length < 2 then ([], c.2)
            else if env.tfidf_fails then ([], c.2)
            else (rank_candidates c.1 (content_score env all_texts user_texts candidate_texts), c.2)

/-! ### Top level (`get_recommendations`, lines 31-64) -/

/-- Modelled from the spec: `MAX_RECOMMENDATIONS` is imported from
`config.py`, which is not among the sources; §4.1 fixes it as the
configurable maximum, "e.g. 5". -/
def MAX_RECOMMENDATIONS : Nat := 5

/-- Lines 43-49 as a function of their inputs: deduplicate the
concatenated strategy outputs and drop books already in the library. -/
def personal_candidates_of (user_books : List LibraryBook)
    (all_recommendations : List Recommendation) : List Recommendation :=
  (remove_duplicates all_recommendations).filter
    (fun r => decide (r.book.id ∉ user_books.map (fun b => b.book.id)))

/-- The try-block of `get_recommendations` (lines 34-60); the only
call in it whose failure is not already caught closer in is
`get_user_books`. -/
noncomputable def rec_body (env : Env) (uid : Int) (db : DB) :
    Except (PyErr × DB) (List Recommendation × DB) :=
  match get_user_books env uid db with
  | .error e => .error e
  | .ok (user_books, db1) =>
    if user_books.length ≤ 2 then .ok (get_popular_books env 10 db1)
    else
      let g := get_genre_based_recommendations env uid db1
      let c := get_content_based_recommendations env uid g.2
      let personal_recs := env.shuffle_personal
        (personal_candidates_of user_books (g.1 ++ c.1))
      if personal_recs.isEmpty then
        let p := get_popular_books env 10 c.2
        let popular := p.1.filter
          (fun r => decide (r.book.id ∉ user_books.map (fun b => b.book.id)))
        .ok ((env.shuffle_popular popular).take MAX_RECOMMENDATIONS, p.2)
      else .ok (personal_recs.take MAX_RECOMMENDATIONS, c.2)

/-- `get_recommendations(user_id)`: the catch-all `except` (lines
62-64) degrades any escaped failure to `_get_popular_books()`. -/
noncomputable def get_recommendations (env : Env) (uid : Int) (db : DB) :
    List Recommendation × DB :=
  match rec_body env uid db with
  | .ok out => out
  | .error (_, db1) => get_popular_books env 10 db1

/-- The deduplicated, ownership-filtered candidate list of lines 43-49,
i.e. the value of `personal_recs` before `random.shuffle` runs
(empty when the initial library read fails). -/
noncomputable def personal_candidates (env : Env) (uid : Int) (db : DB) :
    List Recommendation :=
  match get_user_books env uid db with
  | .error _ => []
  | .ok (user_books, db1) =>
    let g := get_genre_based_recommendations env uid db1
    let c := get_content_based_recommendations env uid g.2
    personal_candidates_of user_books (g.1 ++ c.1)

/-! ### Oracle validity -/

/-- A valid `ORDER BY RANDOM()` oracle: it permutes the result set. -/
def PermOracle (f : List Book → List Book) : Prop :=
  ∀ l, (f l).Perm l

/-- A valid `random.shuffle` oracle: it permutes the list. -/
def ShuffleOracle (f : List Recommendation → List Recommendation) : Prop :=
  ∀ l, (f l).Perm l

/-! ### State-preservation lemmas: the recommendation path only SELECTs -/

theorem get_user_books_ok {env : Env} {uid : Int} {db : DB} {p} :
    get_user_books env uid db = .ok p → p = (user_books_query db uid, db) := by
  unfold get_user_books
  split
  · intro h; cases h
  · intro h; cases h; rfl

theorem get_user_books_err {env : Env} {uid : Int} {db : DB} {e} :
    get_user_books env uid db = .error e → e = (.storeErr, db) := by
  unfold get_user_books
  split
  · intro h; cases h; rfl
  · intro h; cases h

theorem get_user_genres_ok {env : Env} {uid : Int} {db : DB} {p} :
    get_user_genres_and_ratings env uid db = .ok p →
    p = (genre_aggregates_query db uid, db) := by
  unfold get_user_genres_and_ratings
  split
  · intro h; cases h
  · intro h; cases h; rfl

theorem get_user_genres_err {env : Env} {uid : Int} {db : DB} {e} :
    get_user_genres_and_ratings env uid db = .error e → e = (.storeErr, db) := by
  unfold get_user_genres_and_ratings
  split
  · intro h; cases h; rfl
  · intro h; cases h

theorem find_books_by_genre_snd (env : Env) (g : String) (lim : Nat) (db : DB) :
    (find_books_by_genre env g lim db).2 = db := rfl

theorem get_candidate_books_snd (env : Env) (lim : Nat) (db : DB) :
    (get_candidate_books env lim db).2 = db := rfl

theorem get_popular_books_snd (env : Env) (lim : Nat) (db : DB) :
    (get_popular_books env lim db).2 = db := rfl

theorem genre_fetch_snd (env : Env) : ∀ (gs : List String) (db : DB),
    (genre_fetch env gs db).2 = db
  | [], _ => rfl
  | g :: gs, db => by
    simp only [genre_fetch, genre_fetch_snd env gs, find_books_by_genre_snd]

theorem get_genre_based_snd (env : Env) (uid : Int) (db : DB) :
    (get_genre_based_recommendations env uid db).2 = db := by
  unfold get_genre_based_recommendations
  cases h : get_user_genres_and_ratings env uid db with
  | error e => simpa using congrArg Prod.snd (get_user_genres_err h)
  | ok p =>
    cases get_user_genres_ok h
    simp only []
    split
    · rfl
    · exact genre_fetch_snd env _ db

theorem get_content_based_snd (env : Env) (uid : Int) (db : DB) :
    (get_content_based_recommendations env uid db).2 = db := by
  unfold get_content_based_recommendations
  cases h : get_user_books env uid db with
  | error e => simpa using congrArg Prod.snd (get_user_books_err h)
  | ok p =>
    cases get_user_books_ok h
    simp only []
    cases hl : likedFilter (user_books_query db uid) with
    | error e => rfl
    | ok liked =>
      simp only []
      split
      · rfl
      · split
        · rfl
        · split
          · rfl
          · split
            · rfl
            · split <;> rfl

theorem rec_body_ok_snd {env : Env} {uid : Int} {db : DB} {out} :
    rec_body env uid db = .ok out → out.2 = db := by
  unfold rec_body
  cases h : get_user_books env uid db with
  | error e => intro hh; cases hh
  | ok p =>
    cases get_user_books_ok h
    simp only []
    intro hh
    split at hh
    · cases hh; rfl
    · split at hh <;> cases hh <;>
        simp only [get_content_based_snd, get_genre_based_snd, get_popular_books_snd]

theorem rec_body_err_snd {env : Env} {uid : Int} {db : DB} {e} :
    rec_body env uid db = .error e → e.2 = db := by
  unfold rec_body
  cases h : get_user_books env uid db with
  | error e0 =>
    intro hh; cases hh
    simpa using congrArg Prod.snd (get_user_books_err h)
  | ok p =>
    cases get_user_books_ok h
    simp only []
    intro hh
    split at hh
    · cases hh
    · split at hh <;> cases hh

/-- C10: the recommendation path only reads the store — every SQL
statement it issues is a SELECT, so the database state after any call to
`get_recommendations` (user libraries and catalog alike) equals the
state before it, for every user, store state and oracle behaviour. -/
theorem C10_theorem : ∀ (env : Env) (uid : Int) (db : DB),
    (get_recommendations env uid db).2 = db := by
  intro env uid db
  unfold get_recommendations
  cases h : rec_body env uid db with
  | error e =>
    rw [get_popular_books_snd, rec_body_err_snd h]
  | ok out => exact rec_body_ok_snd h

/-! ### Concrete store states and environments used by witnesses -/

/-- Book constructor for concrete test states. -/
def bk (i : Int) (g d : Option String) : Book :=
  { id := i, title := some "T", author := some "A", genre := g, description := d }

/-- The all-defaults environment: no store failure, identity
permutations and shuffles. -/
def envA : Env := {}

/-- Same store behaviour as `envA` except that every `ORDER BY
RANDOM()` returns the result set reversed. -/
def envB : Env := { rand_genre := fun _ l => l.reverse }

/-- An environment in which every store lookup raises and the
vectorizer fails. -/
def envFail : Env :=
  { fail_user_books := true, fail_user_genres := true, fail_books_by_genre := true,
    fail_candidate_books := true, fail_popular_books := true, tfidf_fails := true }

/-- One catalog book which user 7 already owns (and rated 8). -/
def dbC1 : DB := { books := [bk 1 (some "F") none], user_books := [⟨7, 1, some 8⟩] }

/-- Six catalog books, user 7 owns nothing. -/
def dbC2 : DB :=
  { books := [bk 1 none none, bk 2 none none, bk 3 none none,
              bk 4 none none, bk 5 none none, bk 6 none none],
    user_books := [] }

/-- Nine catalog books of genre "F"; user 7 owns books 1-3 with high
ratings, so the personalized path runs and the genre query matches all
nine books (more than the per-genre limit of 5). -/
def dbC8 : DB :=
  { books := [bk 1 (some "F") none, bk 2 (some "F") none, bk 3 (some "F") none,
              bk 4 (some "F") none, bk 5 (some "F") none, bk 6 (some "F") none,
              bk 7 (some "F") none, bk 8 (some "F") none, bk 9 (some "F") none],
    user_books := [⟨7, 1, some 8⟩, ⟨7, 2, some 9⟩, ⟨7, 3, some 10⟩] }

/-- User 7 owns three books: two rated high, one unrated (NULL). -/
def dbC9 : DB :=
  { books := [bk 1 (some "F") none, bk 2 (some "F") none, bk 3 (some "F") none],
    user_books := [⟨7, 1, some 8⟩, ⟨7, 2, none⟩, ⟨7, 3, some 9⟩] }

/-! ### C3: cold start -/

/-- Every entry of `_get_popular_books` is tagged `popular`. -/
theorem get_popular_books_tag (env : Env) (lim : Nat) (db : DB) :
    ∀ r ∈ (get_popular_books env lim db).1, r.recommendation_type = "popular" := by
  intro r hr
  unfold get_popular_books at hr
  simp only [] at hr
  split at hr
  · simp at hr
  · obtain ⟨b, _, rfl⟩ := List.mem_map.mp hr
    rfl

/-- C3: for every user whose library read succeeds and returns at most
2 entries, `get_recommendations` skips the personalized strategies —
it returns exactly the `_get_popular_books()` result — and hence every
returned entry is tagged `recommendation_type = "popular"` (with or
without a non-empty catalog). -/
theorem C3_theorem : ∀ (env : Env) (uid : Int) (db : DB),
    env.fail_user_books = false →
    (user_books_query db uid).length ≤ 2 →
    get_recommendations env uid db = get_popular_books env 10 db ∧
    ∀ r ∈ (get_recommendations env uid db).1, r.recommendation_type = "popular" := by
  intro env uid db hf hlen
  have hub : get_user_books env uid db = .ok (user_books_query db uid, db) := by
    simp [get_user_books, hf]
  have hbody : rec_body env uid db = .ok (get_popular_books env 10 db) := by
    unfold rec_body
    rw [hub]
    simp only []
    rw [if_pos hlen]
  have hrec : get_recommendations env uid db = get_popular_books env 10 db := by
    unfold get_recommendations
    rw [hbody]
  exact ⟨hrec, by rw [hrec]; exact get_popular_books_tag env 10 db⟩

/-- Witness for C3 at a concrete store: user 7 owns one of one book. -/
theorem C3_witness :
    (user_books_query dbC1 7).length ≤ 2 ∧
    ∀ r ∈ (get_recommendations envA 7 dbC1).1, r.recommendation_type = "popular" :=
  ⟨by decide, (C3_theorem envA 7 dbC1 rfl (by decide)).2⟩

/-! ### C4: total error handling -/

/-- C4: `get_recommendations` never raises and degrades every internal
failure to the popularity fallback: (i) if the library read raises, the
top-level handler returns `_get_popular_books()` (itself total); (ii) if
the library read succeeds the body cannot raise at all; (iii-iv) the
result is the body's list, or the popularity fallback when the body
raised; (v-vii) a failing strategy or failing strategy lookup
contributes no candidates instead of failing the request. -/
theorem C4_theorem : ∀ (env : Env) (uid : Int) (db : DB),
    (env.fail_user_books = true →
      get_recommendations env uid db = get_popular_books env 10 db) ∧
    (env.fail_user_books = false → ∃ out, rec_body env uid db = Except.ok out) ∧
    (∀ out, rec_body env uid db = Except.ok out → get_recommendations env uid db = out) ∧
    (∀ e, rec_body env uid db = Except.error e →
      get_recommendations env uid db = get_popular_books env 10 db) ∧
    (env.fail_user_genres = true → (get_genre_based_recommendations env uid db).1 = []) ∧
    (env.fail_books_by_genre = true →
      ∀ g lim, (find_books_by_genre env g lim db).1 = []) ∧
    (env.fail_candidate_books = true → ∀ lim, (get_candidate_books env lim db).1 = []) := by
  intro env uid db
  refine ⟨?_, ?_, ?_, ?_, ?_, ?_, ?_⟩
  · intro hf
    have herr : rec_body env uid db = .error (.storeErr, db) := by
      unfold rec_body
      rw [show get_user_books env uid db = .error (.storeErr, db) by
        simp [get_user_books, hf]]
    unfold get_recommendations
    rw [herr]
  · intro hf
    have hub : get_user_books env uid db = .ok (user_books_query db uid, db) := by
      simp [get_user_books, hf]
    unfold rec_body
    rw [hub]
    simp only []
    split
    · exact ⟨_, rfl⟩
    · split
      · exact ⟨_, rfl⟩
      · exact ⟨_, rfl⟩
  · intro out h
    unfold get_recommendations
    rw [h]
  · intro e h
    obtain ⟨e1, e2⟩ := e
    unfold get_recommendations
    rw [h]
    simp only []
    rw [show e2 = db from rec_body_err_snd h]
  · intro hg
    unfold get_genre_based_recommendations
    rw [show get_user_genres_and_ratings env uid db = .error (.storeErr, db) by
      simp [get_user_genres_and_ratings, hg]]
  · intro hg g lim
    simp [find_books_by_genre, hg]
  · intro hc lim
    simp [get_candidate_books, hc]

/-- Witness for C4 at a concrete input: with every lookup failing, the
call still returns, equal to the (empty) popularity fallback, and the
strategies contribute nothing. -/
theorem C4_witness :
    get_recommendations envFail 7 dbC1 = get_popular_books envFail 10 dbC1 ∧
    (get_genre_based_recommendations envFail 7 dbC1).1 = [] ∧
    (find_books_by_genre envFail "F" 5 dbC1).1 = [] :=
  ⟨(C4_theorem envFail 7 dbC1).1 rfl,
   (C4_theorem envFail 7 dbC1).2.2.2.2.1 rfl,
   (C4_theorem envFail 7 dbC1).2.2.2.2.2.1 rfl "F" 5⟩

/-! ### C1 and C2: exclusion and length bound -/

/-- Membership in the ownership filter of lines 49 and 58 implies the
id is not in the library. -/
theorem mem_filter_not_owned {l : List Recommendation} {ids : List Int} {r : Recommendation} :
    r ∈ l.filter (fun r => decide (r.book.id ∉ ids)) → r.book.id ∉ ids := by
  intro h
  exact of_decide_eq_true (List.mem_filter.mp h).2

/-- Entries surviving `personal_candidates_of` are not owned. -/
theorem mem_personal_candidates_of {ub : List LibraryBook} {all : List Recommendation}
    {r : Recommendation} : r ∈ personal_candidates_of ub all →
    r.book.id ∉ ub.map (fun b => b.book.id) := by
  intro h
  exact mem_filter_not_owned h

/-- Under a successful library read, the pre-shuffle candidate list is
the filtered deduplication of the two strategies' output. -/
theorem personal_candidates_eq {env : Env} {uid : Int} {db : DB}
    (hf : env.fail_user_books = false) :
    personal_candidates env uid db =
      personal_candidates_of (user_books_query db uid)
        ((get_genre_based_recommendations env uid db).1 ++
         (get_content_based_recommendations env uid
            (get_genre_based_recommendations env uid db).2).1) := by
  unfold personal_candidates
  rw [show get_user_books env uid db = .ok (user_books_query db uid, db) by
    simp [get_user_books, hf]]

/-- On the personalized path the body returns either the truncated
shuffled personal candidates or, when those are empty, the truncated
shuffled owned-filtered popular list. -/
theorem rec_body_personal {env : Env} {uid : Int} {db : DB}
    (hf : env.fail_user_books = false)
    (hlen : ¬ (user_books_query db uid).length ≤ 2) :
    ∃ l, rec_body env uid db = .ok (l, db) ∧
      (l = (env.shuffle_personal (personal_candidates env uid db)).take MAX_RECOMMENDATIONS ∨
       l = (env.shuffle_popular ((get_popular_books env 10 db).1.filter
          (fun r => decide (r.book.id ∉
            (user_books_query db uid).map (fun b => b.book.id))))).take
          MAX_RECOMMENDATIONS) := by
  have hub : get_user_books env uid db = .ok (user_books_query db uid, db) := by
    simp [get_user_books, hf]
  have hc2 : (get_content_based_recommendations env uid
      (get_genre_based_recommendations env uid db).2).2 = db := by
    rw [get_content_based_snd, get_genre_based_snd]
  unfold rec_body
  rw [hub]
  simp only []
  rw [if_neg hlen, personal_candidates_eq hf, hc2]
  split
  · exact ⟨_, rfl, Or.inr rfl⟩
  · exact ⟨_, rfl, Or.inl rfl⟩

/-- C1 corrected: on the personalized path — the library read succeeds
and returns more than 2 entries — no identity returned by
`get_recommendations` is in the requesting user's library, both when the
personalized candidates are non-empty and on the popularity fallback for
an empty personalized list.  (On the cold-start path and on the
internal-failure path the popular list is returned unfiltered, see the
counterexample.) -/
theorem C1_amended : ∀ (env : Env) (uid : Int) (db : DB),
    env.fail_user_books = false →
    2 < (user_books_query db uid).length →
    ShuffleOracle env.shuffle_personal →
    ShuffleOracle env.shuffle_popular →
    ∀ r ∈ (get_recommendations env uid db).1,
      r.book.id ∉ (user_books_query db uid).map (fun b => b.book.id) := by
  intro env uid db hf hlen hsp hso r hr
  obtain ⟨l, hbody, hl⟩ := rec_body_personal hf (Nat.not_le.mpr hlen)
  rw [show get_recommendations env uid db = (l, db) by
    unfold get_recommendations; rw [hbody]] at hr
  cases hl with
  | inl h =>
    subst h
    have h1 := ((hsp _).mem_iff).mp (List.mem_of_mem_take hr)
    rw [personal_candidates_eq hf] at h1
    exact mem_personal_candidates_of h1
  | inr h =>
    subst h
    exact mem_filter_not_owned (((hso _).mem_iff).mp (List.mem_of_mem_take hr))

/-- Counterexample to C1 as stated: on the cold-start path (library of
1 entry) `get_recommendations` returns the unfiltered popular list,
which contains book 1 — a book already in user 7's library. -/
theorem C1_counterexample :
    (1 : Int) ∈ ((get_recommendations envA 7 dbC1).1).map (fun r => r.book.id) ∧
    (1 : Int) ∈ (user_books_query dbC1 7).map (fun b => b.book.id) :=
  ⟨by decide, by decide⟩

/-- Witness for C1 on a personalized run: user 7 owns 3 of 9 books. -/
theorem C1_witness :
    2 < (user_books_query dbC8 7).length ∧
    ∀ r ∈ (get_recommendations envA 7 dbC8).1,
      r.book.id ∉ (user_books_query dbC8 7).map (fun b => b.book.id) :=
  ⟨by decide, C1_amended envA 7 dbC8 rfl (by decide)
    (fun l => List.Perm.refl l) (fun l => List.Perm.refl l)⟩

/-- The popular list has at most `lim` entries. -/
theorem get_popular_books_len (env : Env) (lim : Nat) (db : DB) :
    (get_popular_books env lim db).1.length ≤ lim := by
  unfold get_popular_books
  simp only []
  split
  · simp
  · rw [List.length_map]
    exact List.length_take_le _ _

/-- Whatever the body returns has at most 10 entries (10 = the popular
limit; the personalized branches truncate further to
`MAX_RECOMMENDATIONS`). -/
theorem rec_body_ok_len {env : Env} {uid : Int} {db : DB} {out} :
    rec_body env uid db = .ok out → out.1.length ≤ 10 := by
  unfold rec_body
  cases h : get_user_books env uid db with
  | error e => intro hh; cases hh
  | ok p =>
    cases get_user_books_ok h
    simp only []
    intro hh
    split at hh
    · cases hh; exact get_popular_books_len env 10 db
    · split at hh <;> cases hh
      · exact le_trans (List.length_take_le _ _) (by norm_num [MAX_RECOMMENDATIONS])
      · exact le_trans (List.length_take_le _ _) (by norm_num [MAX_RECOMMENDATIONS])

/-- C2 corrected: every returned list has at most 10 entries (the
`_get_popular_books` limit), and on the personalized path at most
`MAX_RECOMMENDATIONS = 5`; the cold-start and internal-failure paths
return the popular list untruncated, so they respect 10 but not 5 (see
the counterexample). -/
theorem C2_amended : ∀ (env : Env) (uid : Int) (db : DB),
    (get_recommendations env uid db).1.length ≤ 10 ∧
    (env.fail_user_books = false → 2 < (user_books_query db uid).length →
      (get_recommendations env uid db).1.length ≤ MAX_RECOMMENDATIONS) := by
  intro env uid db
  constructor
  · unfold get_recommendations
    cases h : rec_body env uid db with
    | error e =>
      obtain ⟨e1, e2⟩ := e
      simp only []
      exact get_popular_books_len env 10 e2
    | ok out => exact rec_body_ok_len h
  · intro hf hlen
    obtain ⟨l, hbody, hl⟩ := rec_body_personal hf (Nat.not_le.mpr hlen)
    rw [show get_recommendations env uid db = (l, db) by
      unfold get_recommendations; rw [hbody]]
    cases hl with
    | inl h => subst h; exact List.length_take_le _ _
    | inr h => subst h; exact List.length_take_le _ _

/-- Counterexample to C2 as stated: with 6 catalog books and an empty
library, the cold-start path returns all 6 — more than
`MAX_RECOMMENDATIONS = 5`. -/
theorem C2_counterexample :
    ¬ ((get_recommendations envA 7 dbC2).1.length ≤ MAX_RECOMMENDATIONS) := by
  decide

/-- Witness for C2 at a concrete personalized run. -/
theorem C2_witness :
    (get_recommendations envA 7 dbC8).1.length ≤ 10 ∧
    (get_recommendations envA 7 dbC8).1.length ≤ MAX_RECOMMENDATIONS :=
  ⟨(C2_amended envA 7 dbC8).1, (C2_amended envA 7 dbC8).2 rfl (by decide)⟩

/-! ### C5: deduplication -/

/-- A record whose id is Python-falsy (0). -/
def rec0 : Recommendation := { book := bk 0 none none, recommendation_type := "genre_based" }

/-- A genre-tagged record with id 1. -/
def recA : Recommendation := { book := bk 1 (some "F") none, recommendation_type := "genre_based" }

/-- When every id is truthy, the code's dedup loop computes exactly the
spec's first-occurrence subsequence. -/
theorem remove_duplicates_aux_eq_spec :
    ∀ (l : List Recommendation) (seen : List Int), (∀ r ∈ l, r.book.id ≠ 0) →
    remove_duplicates_aux seen l = spec_first_occurrence_aux seen l
  | [], _, _ => rfl
  | b :: rest, seen, h => by
    unfold remove_duplicates_aux spec_first_occurrence_aux
    have hb : b.book.id ≠ 0 := h b (List.mem_cons_self b rest)
    have hrest : ∀ r ∈ rest, r.book.id ≠ 0 := fun r hr => h r (List.mem_cons_of_mem b hr)
    by_cases hmem : b.book.id ∈ seen
    · rw [if_neg (fun hc => hc.2 hmem), if_pos hmem]
      exact remove_duplicates_aux_eq_spec rest seen hrest
    · rw [if_pos ⟨hb, hmem⟩, if_neg hmem,
        remove_duplicates_aux_eq_spec rest _ hrest]

/-- The dedup loop never emits an id twice, nor one already seen. -/
theorem remove_duplicates_aux_nodup :
    ∀ (l : List Recommendation) (seen : List Int),
    ((remove_duplicates_aux seen l).map (fun r => r.book.id)).Nodup ∧
    ∀ r ∈ remove_duplicates_aux seen l, r.book.id ∉ seen
  | [], _ => ⟨List.nodup_nil, by simp [remove_duplicates_aux]⟩
  | b :: rest, seen => by
    unfold remove_duplicates_aux
    by_cases hc : b.book.id ≠ 0 ∧ b.book.id ∉ seen
    · rw [if_pos hc]
      obtain ⟨ih1, ih2⟩ := remove_duplicates_aux_nodup rest (b.book.id :: seen)
      refine ⟨?_, ?_⟩
      · simp only [List.map_cons, List.nodup_cons]
        refine ⟨?_, ih1⟩
        intro hmem
        obtain ⟨r, hr, hid⟩ := List.mem_map.mp hmem
        exact ih2 r hr (by rw [hid]; exact List.mem_cons_self _ _)
      · intro r hr
        rcases List.mem_cons.mp hr with h | h
        · rw [h]; exact hc.2
        · exact fun hs => ih2 r h (List.mem_cons_of_mem _ hs)
    · rw [if_neg hc]
      exact remove_duplicates_aux_nodup rest seen

/-- `_remove_duplicates` output has pairwise-distinct identities. -/
theorem remove_duplicates_nodup (l : List Recommendation) :
    ((remove_duplicates l).map (fun r => r.book.id)).Nodup :=
  (remove_duplicates_aux_nodup l []).1

theorem insertBy_perm (le : α → α → Bool) (a : α) :
    ∀ l, (insertBy le a l).Perm (a :: l)
  | [] => List.Perm.refl _
  | b :: l => by
    unfold insertBy
    split
    · exact List.Perm.refl _
    · exact ((insertBy_perm le a l).cons b).trans (List.Perm.swap a b l)

theorem sortBy_perm (le : α → α → Bool) : ∀ l, (sortBy le l).Perm l
  | [] => List.Perm.refl _
  | a :: l => (insertBy_perm le a (sortBy le l)).trans ((sortBy_perm le l).cons a)

/-- With primary-key-unique catalog ids, the popular list has
pairwise-distinct identities. -/
theorem get_popular_books_nodup {env : Env} {lim : Nat} {db : DB}
    (h : (db.books.map Book.id).Nodup) :
    ((get_popular_books env lim db).1.map (fun r => r.book.id)).Nodup := by
  unfold get_popular_books
  simp only []
  split
  · simp
  · rw [List.map_map]
    have hperm : ((sortBy (popLe db) db.books).map Book.id).Perm (db.books.map Book.id) :=
      (sortBy_perm _ _).map _
    have hnodup : ((sortBy (popLe db) db.books).map Book.id).Nodup :=
      hperm.nodup_iff.mpr h
    exact (hnodup.sublist ((List.take_sublist _ _).map _) : _)

/-- Identity-Nodup survives shuffling (a permutation) and truncation. -/
theorem nodup_map_take_shuffle {f : List Recommendation → List Recommendation}
    (hf : ShuffleOracle f) {l : List Recommendation}
    (h : (l.map (fun r => r.book.id)).Nodup) (n : Nat) :
    (((f l).take n).map (fun r => r.book.id)).Nodup := by
  have h1 : ((f l).map (fun r => r.book.id)).Nodup := (((hf l).map _).nodup_iff).mpr h
  exact h1.sublist ((List.take_sublist _ _).map _)

/-- C5 corrected: (i) on sequences whose ids are all truthy (non-zero)
the code's `_remove_duplicates` is exactly the spec's pure
first-occurrence dedup, preserving relative order; (ii) its output never
repeats an identity; (iii) consequently — given primary-key-unique
catalog ids and genuine shuffles — no list returned by
`get_recommendations` repeats an identity.  (A record with falsy id is
dropped entirely instead of keeping its first occurrence, see the
counterexample.) -/
theorem C5_amended :
    (∀ l : List Recommendation, (∀ r ∈ l, r.book.id ≠ 0) →
      remove_duplicates l = spec_first_occurrence l) ∧
    (∀ l : List Recommendation,
      ((remove_duplicates l).map (fun r => r.book.id)).Nodup) ∧
    (∀ (env : Env) (uid : Int) (db : DB), (db.books.map Book.id).Nodup →
      ShuffleOracle env.shuffle_personal → ShuffleOracle env.shuffle_popular →
      ((get_recommendations env uid db).1.map (fun r => r.book.id)).Nodup) := by
  refine ⟨fun l h => remove_duplicates_aux_eq_spec l [] h, remove_duplicates_nodup, ?_⟩
  intro env uid db hdb hsp hso
  cases hfub : env.fail_user_books with
  | true =>
    have herr : rec_body env uid db = .error (.storeErr, db) := by
      unfold rec_body
      rw [show get_user_books env uid db = .error (.storeErr, db) by
        simp [get_user_books, hfub]]
    rw [show get_recommendations env uid db = get_popular_books env 10 db by
      unfold get_recommendations; rw [herr]]
    exact get_popular_books_nodup hdb
  | false =>
    by_cases hlen : (user_books_query db uid).length ≤ 2
    · have hub : get_user_books env uid db = .ok (user_books_query db uid, db) := by
        simp [get_user_books, hfub]
      have hbody : rec_body env uid db = .ok (get_popular_books env 10 db) := by
        unfold rec_body
        rw [hub]
        simp only []
        rw [if_pos hlen]
      rw [show get_recommendations env uid db = get_popular_books env 10 db by
        unfold get_recommendations; rw [hbody]]
      exact get_popular_books_nodup hdb
    · obtain ⟨l, hbody, hl⟩ := rec_body_personal hfub hlen
      rw [show get_recommendations env uid db = (l, db) by
        unfold get_recommendations; rw [hbody]]
      cases hl with
      | inl h =>
        rw [h]
        refine nodup_map_take_shuffle hsp ?_ _
        rw [personal_candidates_eq hfub]
        unfold personal_candidates_of
        exact (remove_duplicates_nodup _).sublist ((List.filter_sublist _).map _)
      | inr h =>
        rw [h]
        refine nodup_map_take_shuffle hso ?_ _
        exact (get_popular_books_nodup hdb).sublist ((List.filter_sublist _).map _)

/-- Counterexample to C5 as stated: on a record with id 0 (Python-falsy)
the code drops every occurrence instead of keeping the first one. -/
theorem C5_counterexample :
    remove_duplicates [rec0] = [] ∧ spec_first_occurrence [rec0] = [rec0] ∧
    remove_duplicates [rec0] ≠ spec_first_occurrence [rec0] := by
  refine ⟨rfl, rfl, ?_⟩
  intro h
  rw [show remove_duplicates [rec0] = [] from rfl,
    show spec_first_occurrence [rec0] = [rec0] from rfl] at h
  simp at h

/-- Witness for C5 on concrete inputs. -/
theorem C5_witness :
    remove_duplicates [recA, recA] = spec_first_occurrence [recA, recA] ∧
    ((get_recommendations envA 7 dbC8).1.map (fun r => r.book.id)).Nodup :=
  ⟨C5_amended.1 [recA, recA] (by decide),
   C5_amended.2.2 envA 7 dbC8 (by decide)
     (fun l => List.Perm.refl l) (fun l => List.Perm.refl l)⟩

/-! ### C6: genre selection -/

/-- The genre aggregates of the claim's worked example. -/
def aggsEx : List (String × ℚ × Nat) :=
  [("Fantasy", 8, 5), ("Drama", 4, 3), ("History", 6, 2)]

/-- Low-rated aggregates exercising the top-3 fallback. -/
def aggsLow : List (String × ℚ × Nat) :=
  [("Drama", 4, 3), ("History", 3, 2), ("Poetry", 2, 2), ("Essay", 1, 1)]

/-- C6: on any aggregate list, the genre strategy prefers exactly the
genres with average rating ≥ 5.0, in order; if none qualify it falls
back to the first three aggregates; on the worked example it selects
["Fantasy", "History"]; the strategy uses at most the first 3 preferred
genres and fetches at most 5 books per genre. -/
theorem C6_theorem :
    (∀ ags : List (String × ℚ × Nat), (∃ g ∈ ags, (5 : ℚ) ≤ g.2.1) →
      preferred_genres ags =
        (ags.filter (fun g => decide ((5 : ℚ) ≤ g.2.1))).map Prod.fst) ∧
    (∀ ags : List (String × ℚ × Nat), (∀ g ∈ ags, g.2.1 < 5) →
      preferred_genres ags = (ags.take 3).map Prod.fst) ∧
    preferred_genres aggsEx = ["Fantasy", "History"] ∧
    (∀ (env : Env) (uid : Int) (db : DB), env.fail_user_genres = false →
      genre_aggregates_query db uid ≠ [] →
      get_genre_based_recommendations env uid db =
        genre_fetch env ((preferred_genres (genre_aggregates_query db uid)).take 3) db) ∧
    (∀ (env : Env) (g : String) (lim : Nat) (db : DB),
      (find_books_by_genre env g lim db).1.length ≤ lim) := by
  refine ⟨?_, ?_, by decide, ?_, ?_⟩
  · intro ags ⟨g, hg, hge⟩
    unfold preferred_genres
    rw [if_neg]
    intro hc
    have : g ∈ ags.filter (fun g => decide ((5 : ℚ) ≤ g.2.1)) :=
      List.mem_filter.mpr ⟨hg, decide_eq_true hge⟩
    rw [List.isEmpty_iff] at hc
    have h2 := List.mem_map_of_mem Prod.fst this
    rw [hc] at h2
    exact List.not_mem_nil _ h2
  · intro ags h
    unfold preferred_genres
    rw [if_pos]
    rw [List.isEmpty_iff, List.map_eq_nil_iff, List.filter_eq_nil_iff]
    intro g hg
    simp only [decide_eq_true_eq]
    exact not_le.mpr (h g hg)
  · intro env uid db hf hne
    unfold get_genre_based_recommendations
    rw [show get_user_genres_and_ratings env uid db =
        .ok (genre_aggregates_query db uid, db) by
      simp [get_user_genres_and_ratings, hf]]
    simp only []
    rw [if_neg (fun hc => hne (List.isEmpty_iff.mp hc))]
  · intro env g lim db
    unfold find_books_by_genre
    simp only []
    split
    · simp
    · rw [List.length_map]
      exact List.length_take_le _ _

/-- Witness for C6 at concrete aggregates and a concrete store. -/
theorem C6_witness :
    preferred_genres aggsEx =
      (aggsEx.filter (fun g => decide ((5 : ℚ) ≤ g.2.1))).map Prod.fst ∧
    preferred_genres aggsLow = (aggsLow.take 3).map Prod.fst ∧
    get_genre_based_recommendations envA 7 dbC8 =
      genre_fetch envA ((preferred_genres (genre_aggregates_query dbC8 7)).take 3) dbC8 ∧
    (find_books_by_genre envA "F" 5 dbC8).1.length ≤ 5 :=
  ⟨C6_theorem.1 aggsEx ⟨("Fantasy", 8, 5), by decide, by decide⟩,
   C6_theorem.2.1 aggsLow (by decide),
   C6_theorem.2.2.2.1 envA 7 dbC8 rfl (by decide),
   C6_theorem.2.2.2.2 envA "F" 5 dbC8⟩

/-! ### C8: determinism of the candidate set -/

/-- Two environments drawing identically from the store: all failure
flags, both `ORDER BY RANDOM()` draws and the vectorizer agree — the
two `random.shuffle` oracles may differ arbitrarily. -/
def SameStore (e1 e2 : Env) : Prop :=
  e1.fail_user_books = e2.fail_user_books ∧
  e1.fail_user_genres = e2.fail_user_genres ∧
  e1.fail_books_by_genre = e2.fail_books_by_genre ∧
  e1.fail_candidate_books = e2.fail_candidate_books ∧
  e1.fail_popular_books = e2.fail_popular_books ∧
  e1.tfidf_fails = e2.tfidf_fails ∧
  e1.rand_genre = e2.rand_genre ∧
  e1.rand_candidates = e2.rand_candidates ∧
  e1.vec = e2.vec

theorem get_user_books_congr {e1 e2 : Env} (h : SameStore e1 e2) (uid : Int) (db : DB) :
    get_user_books e1 uid db = get_user_books e2 uid db := by
  unfold get_user_books
  rw [h.1]

theorem get_user_genres_congr {e1 e2 : Env} (h : SameStore e1 e2) (uid : Int) (db : DB) :
    get_user_genres_and_ratings e1 uid db = get_user_genres_and_ratings e2 uid db := by
  unfold get_user_genres_and_ratings
  rw [h.2.1]

theorem find_books_by_genre_congr {e1 e2 : Env} (h : SameStore e1 e2)
    (g : String) (lim : Nat) (db : DB) :
    find_books_by_genre e1 g lim db = find_books_by_genre e2 g lim db := by
  unfold find_books_by_genre
  rw [h.2.2.1, h.2.2.2.2.2.2.1]

theorem get_candidate_books_congr {e1 e2 : Env} (h : SameStore e1 e2)
    (lim : Nat) (db : DB) :
    get_candidate_books e1 lim db = get_candidate_books e2 lim db := by
  unfold get_candidate_books
  rw [h.2.2.2.1, h.2.2.2.2.2.2.2.1]

theorem genre_fetch_congr {e1 e2 : Env} (h : SameStore e1 e2) :
    ∀ (gs : List String) (db : DB), genre_fetch e1 gs db = genre_fetch e2 gs db
  | [], _ => rfl
  | g :: gs, db => by
    unfold genre_fetch
    rw [find_books_by_genre_congr h]
    simp only [genre_fetch_congr h gs]

theorem get_genre_based_congr {e1 e2 : Env} (h : SameStore e1 e2) (uid : Int) (db : DB) :
    get_genre_based_recommendations e1 uid db =
      get_genre_based_recommendations e2 uid db := by
  unfold get_genre_based_recommendations
  rw [get_user_genres_congr h]
  cases hq : get_user_genres_and_ratings e2 uid db with
  | error e => rfl
  | ok p =>
    simp only []
    split
    · rfl
    · exact genre_fetch_congr h _ _

theorem content_score_congr {e1 e2 : Env} (h : SameStore e1 e2) :
    content_score e1 = content_score e2 := by
  funext a u c i
  unfold content_score
  rw [h.2.2.2.2.2.2.2.2]

theorem get_content_based_congr {e1 e2 : Env} (h : SameStore e1 e2) (uid : Int) (db : DB) :
    get_content_based_recommendations e1 uid db =
      get_content_based_recommendations e2 uid db := by
  unfold get_content_based_recommendations
  rw [get_user_books_congr h]
  cases hq : get_user_books e2 uid db with
  | error e => rfl
  | ok p =>
    simp only []
    cases hl : likedFilter p.1 with
    | error e => rfl
    | ok liked =>
      simp only []
      rw [get_candidate_books_congr h, h.2.2.2.2.2.1, content_score_congr h]

theorem personal_candidates_congr (e1 e2 : Env) (h : SameStore e1 e2)
    (uid : Int) (db : DB) :
    personal_candidates e1 uid db = personal_candidates e2 uid db := by
  unfold personal_candidates
  rw [get_user_books_congr h]
  cases hq : get_user_books e2 uid db with
  | error e => rfl
  | ok p =>
    simp only []
    rw [get_genre_based_congr h, get_content_based_congr h]

/-- C8 corrected: the final `random.shuffle` has no influence on the
pre-shuffle candidate list — two calls agreeing on the store draws but
with arbitrary, different shuffles produce the identical candidate list
(noninterference of the shuffle oracles); and a single `ORDER BY
RANDOM() LIMIT ?` sample is set-deterministic precisely in the regime
where the limit does not bind: any valid permutation draw then returns
the whole matching result set (as a permutation of it).  When a limit
binds, different draws can select different candidate sets — see the
counterexample. -/
theorem C8_amended :
    (∀ (env : Env) (uid : Int) (db : DB)
      (f g : List Recommendation → List Recommendation),
      personal_candidates
        { env with shuffle_personal := f, shuffle_popular := g } uid db =
        personal_candidates env uid db) ∧
    (∀ (f : List Book → List Book), PermOracle f →
      ∀ (db : DB) (genre : String) (lim : Nat),
      (books_by_genre_query db genre).length ≤ lim →
      ((f (books_by_genre_query db genre)).take lim).Perm
        (books_by_genre_query db genre)) := by
  constructor
  · intro env uid db f g
    exact personal_candidates_congr
      { env with shuffle_personal := f, shuffle_popular := g } env
      ⟨rfl, rfl, rfl, rfl, rfl, rfl, rfl, rfl, rfl⟩ uid db
  · intro f hf db genre lim hlen
    have hperm := hf (books_by_genre_query db genre)
    rw [List.take_of_length_le (by rw [hperm.length_eq]; exact hlen)]
    exact hperm

/-- Counterexample to C8 as stated: same store, two valid `ORDER BY
RANDOM()` draws (identity and reversal), yet the pre-shuffle candidate
sets differ — book 4 is selected under the first draw and not under the
second (the genre query matches 9 books, the limit keeps 5). -/
theorem C8_counterexample :
    (∀ g l, (envA.rand_genre g l).Perm l) ∧
    (∀ g l, (envB.rand_genre g l).Perm l) ∧
    (4 : Int) ∈ (personal_candidates envA 7 dbC8).map (fun r => r.book.id) ∧
    (4 : Int) ∉ (personal_candidates envB 7 dbC8).map (fun r => r.book.id) :=
  ⟨fun _ l => List.Perm.refl l, fun _ l => List.reverse_perm l, by decide, by decide⟩

/-- Witness for C8 at concrete inputs. -/
theorem C8_witness :
    personal_candidates
      { envA with shuffle_personal := fun _ => [], shuffle_popular := fun _ => [] }
      7 dbC8 = personal_candidates envA 7 dbC8 ∧
    ((List.reverse (books_by_genre_query dbC8 "F")).take 9).Perm
      (books_by_genre_query dbC8 "F") :=
  ⟨C8_amended.1 envA 7 dbC8 (fun _ => []) (fun _ => []),
   C8_amended.2 List.reverse (fun l => List.reverse_perm l) dbC8 "F" 9 (by decide)⟩

/-! ### C9: the liked-set comprehension -/

/-- C9 exhibits a code bug: user 7's library holds ratings
[8, NULL, 9]; the spec's liked set (rating ≥ 5, absent rating simply not
liked) is non-empty, but the comprehension of lines 98-101 evaluates
`None >= 5` on the NULL-rated entry, raises `TypeError`, and the
strategy's catch-all returns no content-based candidates at all. -/
theorem C9_theorem :
    spec_liked (user_books_query dbC9 7) ≠ [] ∧
    likedFilter (user_books_query dbC9 7) = Except.error PyErr.typeErr ∧
    (get_content_based_recommendations envA 7 dbC9).1 = [] :=
  ⟨by decide, rfl, rfl⟩

/-! ### C7: the content-based ranking -/

theorem list_sum_getD (l : List ℝ) :
    l.sum = ∑ i in Finset.range l.length, l.getD i 0 := by
  induction l with
  | nil => simp
  | cons a l ih =>
    rw [List.sum_cons, List.length_cons, Finset.sum_range_succ']
    simp only [List.getD_cons_succ, List.getD_cons_zero]
    rw [← ih]
    ring

theorem getD_zipWith_mul : ∀ (x y : List ℝ) (i : Nat),
    (List.zipWith (· * ·) x y).getD i 0 = x.getD i 0 * y.getD i 0
  | [], y, i => by simp [List.getD_nil]
  | a :: x, [], i => by simp [List.getD_nil]
  | a :: x, b :: y, 0 => rfl
  | a :: x, b :: y, i + 1 => by
    simp only [List.zipWith_cons_cons, List.getD_cons_succ]
    exact getD_zipWith_mul x y i

theorem dotProd_eq_sum (x y : List ℝ) {n : Nat}
    (h : (List.zipWith (· * ·) x y).length ≤ n) :
    dotProd x y = ∑ i in Finset.range n, x.getD i 0 * y.getD i 0 := by
  unfold dotProd
  rw [list_sum_getD]
  rw [Finset.sum_congr rfl (fun i _ => getD_zipWith_mul x y i)]
  apply Finset.sum_subset (Finset.range_subset.mpr h)
  intro i _ hi
  rw [Finset.mem_range, List.length_zipWith] at hi
  rcases min_le_iff.mp (Nat.le_of_not_lt hi) with hx | hy
  · rw [List.getD_eq_default _ _ hx, zero_mul]
  · rw [List.getD_eq_default _ _ hy, mul_zero]

/-- Cauchy-Schwarz for the list dot product. -/
theorem dotProd_le_sqrt_mul_sqrt (x y : List ℝ) :
    dotProd x y ≤ Real.sqrt (dotProd x x) * Real.sqrt (dotProd y y) := by
  have hxy : (List.zipWith (· * ·) x y).length ≤ max x.length y.length := by
    rw [List.length_zipWith]
    exact le_trans (min_le_left _ _) (le_max_left _ _)
  have hxx : (List.zipWith (· * ·) x x).length ≤ max x.length y.length := by
    rw [List.length_zipWith, min_self]
    exact le_max_left _ _
  have hyy : (List.zipWith (· * ·) y y).length ≤ max x.length y.length := by
    rw [List.length_zipWith, min_self]
    exact le_max_right _ _
  rw [dotProd_eq_sum x y hxy, dotProd_eq_sum x x hxx, dotProd_eq_sum y y hyy]
  have h := Real.sum_mul_le_sqrt_mul_sqrt (Finset.range (max x.length y.length))
    (fun i => x.getD i 0) (fun i => y.getD i 0)
  simpa [pow_two] using h

theorem dotProd_nonneg : ∀ (x y : List ℝ), (∀ a ∈ x, 0 ≤ a) → (∀ a ∈ y, 0 ≤ a) →
    0 ≤ dotProd x y
  | [], y, _, _ => by simp [dotProd]
  | a :: x, [], _, _ => by simp [dotProd]
  | a :: x, b :: y, hx, hy => by
    have h1 : 0 ≤ a * b :=
      mul_nonneg (hx a (List.mem_cons_self a x)) (hy b (List.mem_cons_self b y))
    have h2 := dotProd_nonneg x y (fun c hc => hx c (List.mem_cons_of_mem a hc))
      (fun c hc => hy c (List.mem_cons_of_mem b hc))
    show 0 ≤ (List.zipWith (· * ·) (a :: x) (b :: y)).sum
    rw [List.zipWith_cons_cons, List.sum_cons]
    exact add_nonneg h1 h2

theorem cosine_sim_nonneg {x y : List ℝ} (hx : ∀ a ∈ x, 0 ≤ a) (hy : ∀ a ∈ y, 0 ≤ a) :
    0 ≤ cosine_sim x y :=
  div_nonneg (dotProd_nonneg x y hx hy)
    (mul_nonneg (Real.sqrt_nonneg _) (Real.sqrt_nonneg _))

theorem cosine_sim_le_one (x y : List ℝ) : cosine_sim x y ≤ 1 := by
  unfold cosine_sim
  exact div_le_one_of_le₀ (dotProd_le_sqrt_mul_sqrt x y)
    (mul_nonneg (Real.sqrt_nonneg _) (Real.sqrt_nonneg _))

theorem mean_similarity_nonneg {v : List ℝ} {us : List (List ℝ)}
    (hv : ∀ a ∈ v, 0 ≤ a) (hus : ∀ u ∈ us, ∀ a ∈ u, 0 ≤ a) :
    0 ≤ mean_similarity v us := by
  unfold mean_similarity
  apply div_nonneg
  · apply List.sum_nonneg
    intro a ha
    obtain ⟨u, hu, rfl⟩ := List.mem_map.mp ha
    exact cosine_sim_nonneg hv (hus u hu)
  · exact Nat.cast_nonneg _

theorem mean_similarity_le_one (v : List ℝ) (us : List (List ℝ)) :
    mean_similarity v us ≤ 1 := by
  unfold mean_similarity
  rcases Nat.eq_zero_or_pos us.length with h | h
  · rw [h]
    simp
  · rw [div_le_one (by exact_mod_cast h)]
    have hb := List.sum_le_card_nsmul (us.map (fun u => cosine_sim v u)) 1
      (fun x hx => by
        obtain ⟨u, _, rfl⟩ := List.mem_map.mp hx
        exact cosine_sim_le_one v u)
    rw [List.length_map] at hb
    calc (us.map (fun u => cosine_sim v u)).sum ≤ us.length • (1 : ℝ) := hb
      _ = us.length := by simp

theorem sorted_indices_perm (score : Nat → ℝ) (n : Nat) :
    (sorted_indices_desc score n).Perm (List.range n) := by
  unfold sorted_indices_desc
  exact @List.perm_insertionSort Nat (fun i j => score j ≤ score i)
    (fun i j => Real.decidableLE (score j) (score i)) (List.range n)

theorem sorted_indices_pairwise (score : Nat → ℝ) (n : Nat) :
    List.Pairwise (fun i j => score j ≤ score i) (sorted_indices_desc score n) := by
  unfold sorted_indices_desc
  haveI ht : IsTotal Nat (fun i j => score j ≤ score i) :=
    ⟨fun a b => le_total (score b) (score a)⟩
  haveI htr : IsTrans Nat (fun i j => score j ≤ score i) :=
    ⟨fun _ _ _ hab hbc => le_trans hbc hab⟩
  exact @List.sorted_insertionSort Nat (fun i j => score j ≤ score i)
    (fun i j => Real.decidableLE (score j) (score i)) ht htr (List.range n)

theorem rank_candidates_len (cands : List Recommendation) (score : Nat → ℝ) :
    (rank_candidates cands score).length ≤ 10 := by
  unfold rank_candidates
  rw [List.length_map]
  exact le_trans (List.length_filter_le _ _) (List.length_take_le _ _)

theorem rank_candidates_pairwise (cands : List Recommendation) (score : Nat → ℝ) :
    List.Pairwise (fun r1 r2 => ∀ s1 s2 : ℝ, r1.similarity_score = some s1 →
      r2.similarity_score = some s2 → s2 ≤ s1) (rank_candidates cands score) := by
  unfold rank_candidates
  rw [List.pairwise_map]
  have hs := sorted_indices_pairwise score cands.length
  have hsub : List.Sublist
      (((sorted_indices_desc score cands.length).take 10).filter
        (fun i => decide ((0.05 : ℝ) < score i)))
      (sorted_indices_desc score cands.length) :=
    (List.filter_sublist _).trans (List.take_sublist _ _)
  refine (hs.sublist hsub).imp ?_
  intro i j hij s1 s2 h1 h2
  rw [← Option.some.inj h1, ← Option.some.inj h2]
  exact hij

theorem mem_rank_candidates {cands : List Recommendation} {score : Nat → ℝ}
    {r : Recommendation} : r ∈ rank_candidates cands score →
    ∃ i, i < cands.length ∧ (0.05 : ℝ) < score i ∧
      r = { cands.getD i default with similarity_score := some (score i) } := by
  intro h
  unfold rank_candidates at h
  obtain ⟨i, hi, rfl⟩ := List.mem_map.mp h
  have h1 := List.mem_filter.mp hi
  have h2 : i ∈ List.range cands.length :=
    ((sorted_indices_perm score cands.length).mem_iff).mp (List.mem_of_mem_take h1.1)
  exact ⟨i, List.mem_range.mp h2, of_decide_eq_true h1.2, rfl⟩

/-- Every candidate row is tagged `content_based`. -/
theorem get_candidate_books_tag (env : Env) (lim : Nat) (db : DB) :
    ∀ r ∈ (get_candidate_books env lim db).1, r.recommendation_type = "content_based" := by
  intro r hr
  unfold get_candidate_books at hr
  simp only [] at hr
  split at hr
  · simp at hr
  · obtain ⟨b, _, rfl⟩ := List.mem_map.mp hr
    rfl

/-- The corpus (`all_texts` of line 144) the vectorizer is fit on:
liked-item texts followed by the candidate texts. -/
noncomputable def content_corpus (env : Env) (liked : List LibraryBook) (db : DB) :
    List String :=
  liked.map (fun b => bookText b.book) ++
    (get_candidate_books env 100 db).1.map (fun r => bookText r.book)

/-- The content strategy either returns no candidates, or its result is
the ranked list over the fetched candidate sample, with a successful and
non-empty liked set. -/
theorem content_cases (env : Env) (uid : Int) (db : DB) :
    (get_content_based_recommendations env uid db).1 = [] ∨
    (∃ liked, likedFilter (user_books_query db uid) = Except.ok liked ∧ liked ≠ [] ∧
      (get_candidate_books env 100 db).1 ≠ [] ∧
      (get_content_based_recommendations env uid db).1 =
        rank_candidates (get_candidate_books env 100 db).1
          (content_score env (content_corpus env liked db)
            (liked.map (fun b => bookText b.book))
            ((get_candidate_books env 100 db).1.map (fun r => bookText r.book)))) := by
  unfold get_content_based_recommendations
  cases h : get_user_books env uid db with
  | error e =>
    obtain ⟨e1, e2⟩ := e
    left
    rfl
  | ok p =>
    cases get_user_books_ok h
    simp only []
    cases hl : likedFilter (user_books_query db uid) with
    | error e => left; rfl
    | ok liked =>
      simp only []
      split
      · left; rfl
      next hne =>
        split
        · left; rfl
        next =>
          split
          next hce => left; rfl
          next hce =>
            split
            · left; rfl
            next =>
              split
              · left; rfl
              next =>
                right
                refine ⟨liked, rfl, ?_, ?_, rfl⟩
                · intro hnil
                  exact hne (by rw [hnil]; rfl)
                · intro hnil
                  exact hce (by rw [hnil]; rfl)

/-- C7: whenever the content-based strategy returns candidates, the
list has at most 10 entries, is sorted by similarity score descending,
every entry is tagged `content_based` and carries a similarity score
strictly above the 0.05 threshold and inside [0, 1] (given only that
the TF-IDF vectorizer emits componentwise non-negative vectors), and
each score is exactly the mean cosine similarity of that candidate's
vector against all liked-item vectors under the corpus-fitted
vectorizer. -/
theorem C7_theorem : ∀ (env : Env) (uid : Int) (db : DB),
    (∀ c s, ∀ x ∈ env.vec c s, 0 ≤ x) →
    (get_content_based_recommendations env uid db).1.length ≤ 10 ∧
    List.Pairwise (fun r1 r2 => ∀ s1 s2 : ℝ, r1.similarity_score = some s1 →
      r2.similarity_score = some s2 → s2 ≤ s1)
      (get_content_based_recommendations env uid db).1 ∧
    ∀ r ∈ (get_content_based_recommendations env uid db).1,
      r.recommendation_type = "content_based" ∧
      ∃ s : ℝ, r.similarity_score = some s ∧ (0.05 : ℝ) < s ∧ 0 ≤ s ∧ s ≤ 1 ∧
        ∃ liked, likedFilter (user_books_query db uid) = Except.ok liked ∧ liked ≠ [] ∧
          s = mean_similarity
            (env.vec (content_corpus env liked db) (bookText r.book))
            (liked.map (fun b =>
              env.vec (content_corpus env liked db) (bookText b.book))) := by
  intro env uid db hvec
  rcases content_cases env uid db with hres | ⟨liked, hl, hln, _, hres⟩
  · rw [hres]
    exact ⟨by simp, by simp, by simp⟩
  · rw [hres]
    refine ⟨rank_candidates_len _ _, rank_candidates_pairwise _ _, ?_⟩
    intro r hr
    obtain ⟨i, hi, hgt, hre⟩ := mem_rank_candidates hr
    subst hre
    have hmem : (get_candidate_books env 100 db).1.getD i default ∈
        (get_candidate_books env 100 db).1 := by
      rw [List.getD_eq_getElem _ _ hi]
      exact List.getElem_mem _
    have hilt : i < (((get_candidate_books env 100 db).1.map
        (fun r => bookText r.book)).map
          (env.vec (content_corpus env liked db))).length := by
      rw [List.length_map, List.length_map]
      exact hi
    constructor
    · show ((get_candidate_books env 100 db).1.getD i default).recommendation_type =
        "content_based"
      exact get_candidate_books_tag env 100 db _ hmem
    · refine ⟨_, rfl, hgt, ?_, ?_, liked, hl, hln, ?_⟩
      · unfold content_score
        apply mean_similarity_nonneg
        · intro a ha
          rw [List.getD_eq_getElem _ _ hilt, List.getElem_map] at ha
          exact hvec _ _ a ha
        · intro u hu a ha
          obtain ⟨t, _, rfl⟩ := List.mem_map.mp hu
          exact hvec _ _ a ha
      · unfold content_score
        exact mean_similarity_le_one _ _
      · unfold content_score
        congr 1
        · rw [List.getD_eq_getElem _ _ hilt, List.getElem_map, List.getElem_map,
            List.getD_eq_getElem _ _ hi]
        · rw [List.map_map]
          rfl

/-- The store for the C7 witness: user 7 owns books 1-3, all rated
high (so the liked set is all three), and all four catalog books have a
non-empty description (so the candidate sample is non-empty). -/
def dbC7 : DB :=
  { books := [bk 1 (some "F") (some "d1"), bk 2 (some "F") (some "d2"),
              bk 3 (some "F") (some "d3"), bk 4 (some "F") (some "d4")],
    user_books := [⟨7, 1, some 8⟩, ⟨7, 2, some 9⟩, ⟨7, 3, some 10⟩] }

/-- An environment whose vectorizer embeds every document as the
one-dimensional vector [1] — componentwise non-negative, as TF-IDF
output is, and giving every candidate cosine similarity 1. -/
noncomputable def envC7 : Env := { vec := fun _ _ => [1] }

/-- The candidate sample the C7 witness run fetches. -/
noncomputable def candsC7 : List Recommendation := (get_candidate_books envC7 100 dbC7).1

/-- The liked set of the C7 witness run (every library entry is rated
at least 5, so the comprehension keeps all of them). -/
def likedC7 : List LibraryBook := user_books_query dbC7 7

/-- The candidate scores of the C7 witness run. -/
noncomputable def scoreC7 : Nat → ℝ :=
  content_score envC7
    (likedC7.map (fun b => bookText b.book) ++ candsC7.map (fun r => bookText r.book))
    (likedC7.map (fun b => bookText b.book))
    (candsC7.map (fun r => bookText r.book))

theorem mean_similarity_ones : mean_similarity ([1] : List ℝ) [[1], [1], [1]] = 1 := by
  have h1 : dotProd ([1] : List ℝ) [1] = 1 := by
    unfold dotProd
    simp
  have hcos : cosine_sim ([1] : List ℝ) [1] = 1 := by
    unfold cosine_sim
    rw [h1, Real.sqrt_one]
    norm_num
  unfold mean_similarity
  rw [show (([[1], [1], [1]] : List (List ℝ)).map (fun u => cosine_sim [1] u)) =
    [cosine_sim [1] [1], cosine_sim [1] [1], cosine_sim [1] [1]] from rfl, hcos]
  norm_num

theorem scoreC7_eq_one : ∀ i, i < 4 → scoreC7 i = 1 := by
  intro i hi
  have hm : scoreC7 i = mean_similarity
      (([[1], [1], [1], [1]] : List (List ℝ)).getD i []) [[1], [1], [1]] := rfl
  rw [hm, show (([[1], [1], [1], [1]] : List (List ℝ)).getD i []) = [1] by
    interval_cases i <;> rfl]
  exact mean_similarity_ones

/-- On the C7 witness run the content strategy genuinely returns
candidates: the four described books all score mean cosine similarity
1 > 0.05, so the ranked list is the whole sample. -/
theorem contentC7_returns : (get_content_based_recommendations envC7 7 dbC7).1 ≠ [] := by
  have hres : (get_content_based_recommendations envC7 7 dbC7).1 =
      rank_candidates candsC7 scoreC7 := rfl
  have hlen4 : candsC7.length = 4 := rfl
  have hperm := sorted_indices_perm scoreC7 candsC7.length
  have hslen : (sorted_indices_desc scoreC7 candsC7.length).length = 4 := by
    rw [hperm.length_eq, List.length_range, hlen4]
  have htake : (sorted_indices_desc scoreC7 candsC7.length).take 10 =
      sorted_indices_desc scoreC7 candsC7.length :=
    List.take_of_length_le (by rw [hslen]; norm_num)
  have hfil : ((sorted_indices_desc scoreC7 candsC7.length).filter
      (fun i => decide ((0.05 : ℝ) < scoreC7 i))) =
      sorted_indices_desc scoreC7 candsC7.length := by
    apply List.filter_eq_self.mpr
    intro i hi
    have hi4 : i < 4 := by
      have := List.mem_range.mp (hperm.mem_iff.mp hi)
      rwa [hlen4] at this
    rw [scoreC7_eq_one i hi4]
    exact decide_eq_true (by norm_num)
  rw [hres]
  unfold rank_candidates
  rw [htake, hfil]
  intro hnil
  rw [List.map_eq_nil_iff] at hnil
  rw [hnil] at hslen
  simp at hslen

/-- Witness for C7 at a concrete run on which the content strategy
returns a non-empty list (see `contentC7_returns`): the library read
succeeds, the liked set is the three rated books, four described
candidates are sampled, and the vectorizer's non-negativity hypothesis
holds for the genuinely non-zero vector [1]. -/
theorem C7_witness :
    (get_content_based_recommendations envC7 7 dbC7).1 ≠ [] ∧
    (get_content_based_recommendations envC7 7 dbC7).1.length ≤ 10 ∧
    List.Pairwise (fun r1 r2 => ∀ s1 s2 : ℝ, r1.similarity_score = some s1 →
      r2.similarity_score = some s2 → s2 ≤ s1)
      (get_content_based_recommendations envC7 7 dbC7).1 ∧
    ∀ r ∈ (get_content_based_recommendations envC7 7 dbC7).1,
      r.recommendation_type = "content_based" ∧
      ∃ s : ℝ, r.similarity_score = some s ∧ (0.05 : ℝ) < s ∧ 0 ≤ s ∧ s ≤ 1 ∧
        ∃ liked, likedFilter (user_books_query dbC7 7) = Except.ok liked ∧ liked ≠ [] ∧
          s = mean_similarity
            (envC7.vec (content_corpus envC7 liked dbC7) (bookText r.book))
            (liked.map (fun b =>
              envC7.vec (content_corpus envC7 liked dbC7) (bookText b.book))) :=
  ⟨contentC7_returns,
   C7_theorem envC7 7 dbC7
     (fun _ _ _ hx => (List.mem_singleton.mp hx) ▸ zero_le_one)⟩

end BookTrackerBot
